import Mathlib

/-!
# Verification of the moltbot gateway core

Shallow embedding of the gateway's authorization, rate-limiting, hook
dispatch and routing logic (from `src/gateway/method-scopes.ts` and the
Bun gateway server module), together with theorems settling the frozen
claims about it.

External helper modules (`auth.js`, `net.js`, `hooks.js`, …) whose code is
not part of this repository snapshot are either abstracted as
universally-quantified oracle parameters or modelled from the spec; each
such definition says so in its doc comment.
-/

namespace Moltbot

/-! ## Method scope table (`src/gateway/method-scopes.ts`) -/

def ADMIN_SCOPE : String := "operator.admin"

def READ_SCOPE : String := "operator.read"

def WRITE_SCOPE : String := "operator.write"

def APPROVALS_SCOPE : String := "operator.approvals"

def PAIRING_SCOPE : String := "operator.pairing"

def APPROVAL_METHODS : List String :=
  ["exec.approval.request", "exec.approval.waitDecision", "exec.approval.resolve"]

def NODE_ROLE_METHODS : List String :=
  ["node.invoke.result", "node.event", "skills.bins"]

def PAIRING_METHODS : List String :=
  ["node.pair.request", "node.pair.list", "node.pair.approve", "node.pair.reject",
   "node.pair.verify", "device.pair.list", "device.pair.approve", "device.pair.reject",
   "device.pair.remove", "device.token.rotate", "device.token.revoke", "node.rename"]

def ADMIN_METHOD_PREFIXES : List String := ["exec.approvals."]

def READ_METHODS : List String :=
  ["health", "logs.tail", "channels.status", "status", "usage.status", "usage.cost",
   "tts.status", "tts.providers", "models.list", "agents.list", "agent.identity.get",
   "skills.status", "voicewake.get", "sessions.list", "sessions.preview", "cron.list",
   "cron.status", "cron.runs", "system-presence", "last-heartbeat", "node.list",
   "node.describe", "chat.history", "config.get", "talk.config"]

def WRITE_METHODS : List String :=
  ["send", "agent", "agent.wait", "wake", "talk.mode", "tts.enable", "tts.disable",
   "tts.convert", "tts.setProvider", "voicewake.set", "node.invoke", "chat.send",
   "chat.abort", "browser.request", "push.test"]

def ADMIN_METHODS : List String :=
  ["channels.logout", "agents.create", "agents.update", "agents.delete",
   "skills.install", "skills.update", "cron.add", "cron.update", "cron.remove",
   "cron.run", "sessions.patch", "sessions.reset", "sessions.delete", "sessions.compact"]

/-- JS `String.prototype.startsWith`, embedded over the character lists so
that concrete instances reduce in the kernel. -/
def strStartsWith (s p : String) : Bool :=
  p.data.isPrefixOf s.data

def isApprovalMethod (method : String) : Bool :=
  APPROVAL_METHODS.contains method

def isPairingMethod (method : String) : Bool :=
  PAIRING_METHODS.contains method

def isReadMethod (method : String) : Bool :=
  READ_METHODS.contains method

def isWriteMethod (method : String) : Bool :=
  WRITE_METHODS.contains method

def isNodeRoleMethod (method : String) : Bool :=
  NODE_ROLE_METHODS.contains method

def isAdminOnlyMethod (method : String) : Bool :=
  if ADMIN_METHOD_PREFIXES.any (fun p => strStartsWith method p) then
    true
  else if strStartsWith method "config." || strStartsWith method "wizard."
      || strStartsWith method "update." then
    true
  else
    ADMIN_METHODS.contains method

def resolveLeastPrivilegeOperatorScopesForMethod (method : String) : List String :=
  if isApprovalMethod method then [APPROVALS_SCOPE]
  else if isPairingMethod method then [PAIRING_SCOPE]
  else if isReadMethod method then [READ_SCOPE]
  else if isWriteMethod method then [WRITE_SCOPE]
  else if isAdminOnlyMethod method then [ADMIN_SCOPE]
  else []

/-! ## Hook auth failure rate limiter (`createHooksRequestHandler`, gateway server module)

The JS `Map<string, HookAuthFailure>` is embedded as an association list in
insertion order (head = oldest entry), which is exactly the iteration order
of a JS `Map`.  `set` of an absent key appends at the tail; the source code
always deletes before setting, so every write appends. -/

/-- Per-client sliding window counter, `type HookAuthFailure` in the source. -/
structure HookAuthFailure where
  count : Nat
  windowStartedAtMs : Int
deriving Repr, DecidableEq

/-- Return value of `recordHookAuthFailure` in the source. -/
structure HookThrottleResult where
  throttled : Bool
  retryAfterSeconds : Option Int := none
deriving Repr, DecidableEq

def HOOK_AUTH_FAILURE_LIMIT : Nat := 20

def HOOK_AUTH_FAILURE_WINDOW_MS : Int := 60000

def HOOK_AUTH_FAILURE_TRACK_MAX : Nat := 2048

abbrev HookFailureMap := List (String × HookAuthFailure)

/-- Expiry test `nowMs - entry.windowStartedAtMs >= HOOK_AUTH_FAILURE_WINDOW_MS`. -/
def hookEntryExpired (nowMs : Int) (e : HookAuthFailure) : Bool :=
  HOOK_AUTH_FAILURE_WINDOW_MS ≤ nowMs - e.windowStartedAtMs

/-- First eviction phase: delete every expired entry (the `for … delete`
loop over the map). -/
def pruneExpiredHookFailures (m : HookFailureMap) (nowMs : Int) : HookFailureMap :=
  m.filter (fun e => ! hookEntryExpired nowMs e.2)

/-- Capacity handling for a new key at the hard cap: prune expired windows,
then — only if still at capacity — drop the oldest half in insertion order. -/
def evictForNewHookKey (m : HookFailureMap) (nowMs : Int) : HookFailureMap :=
  if HOOK_AUTH_FAILURE_TRACK_MAX ≤ (pruneExpiredHookFailures m nowMs).length then
    (pruneExpiredHookFailures m nowMs).drop ((pruneExpiredHookFailures m nowMs).length / 2)
  else
    pruneExpiredHookFailures m nowMs

/-- Source `recordHookAuthFailure` from the gateway server module: capacity
eviction for a new key, window bump/reset, delete-before-set insertion
order refresh, and the throttle verdict. -/
def recordHookAuthFailure (m : HookFailureMap) (clientKey : String) (nowMs : Int) :
    HookFailureMap × HookThrottleResult :=
  let m₁ :=
    if (m.lookup clientKey).isNone ∧ HOOK_AUTH_FAILURE_TRACK_MAX ≤ m.length then
      evictForNewHookKey m nowMs
    else m
  let next : HookAuthFailure :=
    match m₁.lookup clientKey with
    | none => { count := 1, windowStartedAtMs := nowMs }
    | some cur =>
      if hookEntryExpired nowMs cur then
        { count := 1, windowStartedAtMs := nowMs }
      else
        { count := cur.count + 1, windowStartedAtMs := cur.windowStartedAtMs }
  let m₂ := (m₁.eraseP (fun e => e.1 == clientKey)) ++ [(clientKey, next)]
  if next.count ≤ HOOK_AUTH_FAILURE_LIMIT then
    (m₂, { throttled := false })
  else
    let retryAfterMs := max 1 (next.windowStartedAtMs + HOOK_AUTH_FAILURE_WINDOW_MS - nowMs)
    (m₂, { throttled := true, retryAfterSeconds := some ((retryAfterMs + 999) / 1000) })

/-- Source `clearHookAuthFailure`: drop the caller's window. -/
def clearHookAuthFailure (m : HookFailureMap) (clientKey : String) : HookFailureMap :=
  m.eraseP (fun e => e.1 == clientKey)

/-- A sequence of failure recordings for one key, threading the map. -/
def runHookFailures (st : HookFailureMap × HookThrottleResult) (key : String)
    (ts : List Int) : HookFailureMap × HookThrottleResult :=
  ts.foldl (fun acc t => recordHookAuthFailure acc.1 key t) st

def keysNodup (m : HookFailureMap) : Prop :=
  (m.map Prod.fst).Nodup

/-- Key consisting of `i` copies of `a`; used to populate a concrete map at
the tracking capacity. -/
def crowdKey (i : Nat) : String :=
  String.mk (List.replicate i 'a')

/-- A concrete failure map at the 2048-entry hard cap: one expired window
plus 2047 windows still inside the current window. -/
def hookCrowdMap : HookFailureMap :=
  ("old-window", ⟨1, -100000⟩) :: (List.range 2047).map (fun i => (crowdKey (i + 1), ⟨1, 0⟩))

/-! ## Canvas request authorization (`authorizeCanvasRequest`, gateway server module)

The decision skeleton of `authorizeCanvasRequest` and its two source-file
helpers (`isNodeWsClient`, `hasAuthorizedNodeWsClientForIp`) are translated
from the source.  The imported helpers (`isLocalDirectRequest`,
`isTrustedProxyAddress`, `isPrivateOrLoopbackAddress`,
`resolveGatewayClientIp`, `authorizeGatewayConnect`,
`normalizeGatewayClientMode`) live in modules outside this snapshot, so
they are oracle parameters: the theorems hold for every behaviour of
these functions. -/

/-- Result shape of the gateway auth resolver (`{ok} | {ok:false, reason}`). -/
structure GatewayAuthResult where
  ok : Bool
  reason : Option String := none
deriving Repr, DecidableEq

/-- The fields of the (pseudo) `IncomingMessage` that
`authorizeCanvasRequest` reads: socket address, the two proxy headers and
the extracted bearer token (`getBearerToken`). -/
structure CanvasReq where
  remoteAddress : Option String
  xForwardedFor : Option String
  xRealIp : Option String
  bearerToken : Option String
deriving Repr, DecidableEq

/-- The fields of a `GatewayWsClient` read by the source helpers:
`client.clientIp`, `client.connect.role`, `client.connect.client.mode`. -/
structure WsClient where
  clientIp : Option String
  role : String
  clientMode : Option String
deriving Repr, DecidableEq

/-- Oracles for the helper modules (`auth.js`, `net.js`,
`protocol/client-info.js`) that are outside this snapshot. -/
structure NetEnv where
  isLocalDirect : CanvasReq → List String → Bool
  isTrustedProxy : Option String → List String → Bool
  isPrivateOrLoopback : String → Bool
  resolveClientIp : String → Option String → Option String → List String → String
  authorizeConnect : String → GatewayAuthResult
  normalizeClientMode : Option String → String

/-- JS truthiness of an optional string (absent or empty is falsy). -/
def optTruthy (o : Option String) : Bool :=
  !(o.getD "" == "")

def GATEWAY_CLIENT_MODE_NODE : String := "node"

/-- Source `isNodeWsClient`: role is `node`, or the normalized
client mode is the node mode. -/
def isNodeWsClient (env : NetEnv) (c : WsClient) : Bool :=
  c.role == "node" || env.normalizeClientMode c.clientMode == GATEWAY_CLIENT_MODE_NODE

/-- Source `hasAuthorizedNodeWsClientForIp`. -/
def hasAuthorizedNodeWsClientForIp (env : NetEnv) (clients : List WsClient)
    (clientIp : String) : Bool :=
  clients.any (fun c =>
    optTruthy c.clientIp && c.clientIp.getD "" == clientIp && isNodeWsClient env c)

/-- Parameters of `authorizeCanvasRequest` (the rate limiter is threaded
through the token oracle). -/
structure CanvasAuthParams where
  req : CanvasReq
  trustedProxies : List String
  clients : List WsClient

def unauthorizedResult : GatewayAuthResult :=
  { ok := false, reason := some "unauthorized" }

/-- The resolved client IP used by the fallback path
(`resolveGatewayClientIp({remoteAddr, forwardedFor, realIp, trustedProxies})`). -/
def canvasClientIp (env : NetEnv) (p : CanvasAuthParams) : String :=
  env.resolveClientIp (p.req.remoteAddress.getD "") p.req.xForwardedFor p.req.xRealIp
    p.trustedProxies

/-- IP-based fallback tail of `authorizeCanvasRequest` (everything after
the bearer-token attempt), with the remembered token failure threaded in. -/
def canvasIpFallback (env : NetEnv) (p : CanvasAuthParams)
    (hasProxyHeaders remoteIsTrustedProxy : Bool)
    (lastAuthFailure : Option GatewayAuthResult) : GatewayAuthResult :=
  if canvasClientIp env p == "" then
    lastAuthFailure.getD unauthorizedResult
  else if ! env.isPrivateOrLoopback (canvasClientIp env p) then
    lastAuthFailure.getD unauthorizedResult
  else if hasProxyHeaders && ! remoteIsTrustedProxy then
    lastAuthFailure.getD unauthorizedResult
  else if hasAuthorizedNodeWsClientForIp env p.clients (canvasClientIp env p) then
    { ok := true }
  else
    lastAuthFailure.getD unauthorizedResult

/-- Source `authorizeCanvasRequest` from the gateway server module. -/
def authorizeCanvasRequest (env : NetEnv) (p : CanvasAuthParams) : GatewayAuthResult :=
  if env.isLocalDirect p.req p.trustedProxies then
    { ok := true }
  else
    let hasProxyHeaders := optTruthy p.req.xForwardedFor || optTruthy p.req.xRealIp
    let remoteIsTrustedProxy := env.isTrustedProxy p.req.remoteAddress p.trustedProxies
    let token := p.req.bearerToken.getD ""
    if token == "" then
      canvasIpFallback env p hasProxyHeaders remoteIsTrustedProxy none
    else
      let authResult := env.authorizeConnect token
      if authResult.ok then
        authResult
      else
        canvasIpFallback env p hasProxyHeaders remoteIsTrustedProxy (some authResult)

/-- A concrete oracle environment where the resolved client IP is the raw
socket address and only `127.0.0.1` counts as private/loopback; used to
observe the public-IP denial. -/
def pubEnv : NetEnv :=
  { isLocalDirect := fun _ _ => false
    isTrustedProxy := fun _ _ => false
    isPrivateOrLoopback := fun ip => ip == "127.0.0.1"
    resolveClientIp := fun remote _ _ _ => remote
    authorizeConnect := fun _ => { ok := false, reason := some "unauthorized" }
    normalizeClientMode := fun m => m.getD "" }

/-- A tokenless request from the public address `203.0.113.9` with an
authenticated node connection at that same address. -/
def pubParams : CanvasAuthParams :=
  { req := { remoteAddress := some "203.0.113.9", xForwardedFor := none, xRealIp := none,
             bearerToken := none }
    trustedProxies := []
    clients := [{ clientIp := some "203.0.113.9", role := "node", clientMode := none }] }

/-- A concrete oracle environment where `192.168.1.7` is the sole
private/loopback address and every bearer token fails verification. -/
def lanEnv : NetEnv :=
  { isLocalDirect := fun _ _ => false
    isTrustedProxy := fun _ _ => false
    isPrivateOrLoopback := fun ip => ip == "192.168.1.7"
    resolveClientIp := fun remote _ _ _ => remote
    authorizeConnect := fun _ => { ok := false, reason := some "invalid token" }
    normalizeClientMode := fun m => m.getD "" }

/-- A request from the private address `192.168.1.7` carrying a bad bearer
token, with an authenticated node connection at that same address. -/
def lanParams : CanvasAuthParams :=
  { req := { remoteAddress := some "192.168.1.7", xForwardedFor := none, xRealIp := none,
             bearerToken := some "wrong-secret" }
    trustedProxies := []
    clients := [{ clientIp := some "192.168.1.7", role := "node", clientMode := none }] }

/-! ## Hook request handler (`createHooksRequestHandler`, gateway server module)

The control flow of the returned request handler is translated from the
source.  Helpers imported from `hooks.js` (token extraction, JSON body
reading, payload normalization, agent policy, session-key resolution,
mapping evaluation) and `security/secret-equal.js` are outside this
snapshot; normalization/policy/mapping helpers are oracle parameters and
the two I/O-shaped ones (`extractHookToken` as a request field,
`safeEqualSecret`, `readJsonBody` as a request field) are modelled from
the spec. -/

/-- Outcome of `readJsonBody(req, maxBodyBytes)`.  Modelled from the
spec: the body is read as JSON under a byte cap and a read timeout;
failures carry the error strings the handler branches on. -/
inductive BodyResult (Payload : Type) where
  | ok (value : Payload)
  | err (error : String)
deriving DecidableEq

/-- Normalized `wake` payload: `{text, mode}` with mode `now` or
`next-heartbeat`. -/
structure WakeValue where
  text : String
  mode : String
deriving DecidableEq

/-- The normalized `agent` payload fields the handler itself consumes. -/
structure AgentValue where
  message : String
  name : String
  agentId : Option String
  sessionKey : Option String
deriving DecidableEq

/-- Result of `applyHookMappings`: an exception, no matching rule, a
validation error, an explicit no-action, or a wake/agent action. -/
inductive MappedOutcome where
  | thrown
  | noMatch
  | err (error : String)
  | noAction
  | wakeAct (text : String) (mode : String)
  | agentAct (message : String) (name : Option String) (agentId : Option String)
      (sessionKey : Option String) (channel : Option String)
deriving DecidableEq

/-- Oracles for the `hooks.js` helpers (outside this snapshot), closing
over the resolved hooks configuration like the JS closures do. -/
structure HooksEnv (Payload : Type) where
  normalizeWake : Payload → Except String WakeValue
  normalizeAgent : Payload → Except String AgentValue
  agentAllowed : Option String → Bool
  agentPolicyError : String
  channelError : String
  resolveSessionKey : String → Option String → Except String String
  resolveTargetAgentId : Option String → Option String
  resolveChannel : Option String → Option String
  applyMappings : Payload → String → MappedOutcome
  agentRunId : String

/-- The resolved hooks configuration fields the handler reads. -/
structure HooksConfigResolved where
  basePath : String
  token : String
  mappingsNonempty : Bool
deriving DecidableEq

/-- The fields of the inbound request the handler reads: method, URL
pathname, whether the query string has a `token` parameter, the token
extracted by `extractHookToken` (header-only), the socket address, and
the JSON body read outcome. -/
structure HookReq (Payload : Type) where
  method : String
  pathname : String
  queryHasToken : Bool
  hookToken : Option String
  remoteAddress : Option String
  body : BodyResult Payload
deriving DecidableEq

/-- Modelled from the spec: `safeEqualSecret` from
`security/secret-equal.js` — constant-time equality of the supplied token
against the configured secret; a missing or empty token never matches. -/
def safeEqualSecret (token : Option String) (secret : String) : Bool :=
  token.getD "" != "" && token.getD "" == secret

/-- JS `String.prototype.trim`, embedded over the character lists so that
concrete instances reduce in the kernel. -/
def strTrim (s : String) : String :=
  String.mk (((s.data.dropWhile Char.isWhitespace).reverse.dropWhile Char.isWhitespace).reverse)

/-- Source `resolveHookClientKey`: trimmed socket address, or `unknown`. -/
def resolveHookClientKey (remoteAddress : Option String) : String :=
  if strTrim (remoteAddress.getD "") == "" then "unknown" else strTrim (remoteAddress.getD "")

/-- Sub-path computation `url.pathname.slice(basePath.length)` with leading slashes removed,
embedded over the character lists. -/
def hookSubPath (pathname basePath : String) : String :=
  String.mk ((pathname.data.drop basePath.data.length).dropWhile (fun c => c == '/'))

/-- Status for a failed body read
(`payload too large` 413, `request body timeout` 408, else 400). -/
def hookBodyErrStatus (e : String) : Nat :=
  if e == "payload too large" then 413
  else if e == "request body timeout" then 408
  else 400

/-- The response bodies the handler can produce (`res.end` text or
`sendJson` values). -/
inductive HookRespBody where
  | text (s : String)
  | jsonOkMode (mode : String)
  | jsonOkRunId (runId : String)
  | jsonErr (error : String)
  | empty
deriving DecidableEq

structure HookResponse where
  status : Nat
  retryAfter : Option Int := none
  allow : Option String := none
  body : HookRespBody := .empty
deriving DecidableEq

/-- The internal actions dispatched by the handler. -/
inductive HookDispatch where
  | wake (v : WakeValue)
  | agent (message : String) (name : String) (agentId : Option String) (sessionKey : String)
deriving DecidableEq

/-- What one handler invocation does: whether it claimed the request, the
response it sent, the failure map afterwards, and the dispatched actions. -/
structure HookOutcome where
  claimed : Bool
  response : Option HookResponse
  failures : HookFailureMap
  dispatches : List HookDispatch
deriving DecidableEq

/-- The post-authorization tail of the handler: method check, sub-path
resolution, body handling, `wake`/`agent` routes and mapping evaluation. -/
def hookPostAuth {Payload : Type} (env : HooksEnv Payload)
    (hooksConfig : HooksConfigResolved) (failures : HookFailureMap)
    (req : HookReq Payload) : HookOutcome :=
  if req.method != "POST" then
    { claimed := true,
      response := some { status := 405, allow := some "POST", body := .text "Method Not Allowed" },
      failures, dispatches := [] }
  else if hookSubPath req.pathname hooksConfig.basePath == "" then
    { claimed := true, response := some { status := 404, body := .text "Not Found" },
      failures, dispatches := [] }
  else
    match req.body with
    | .err e =>
      { claimed := true,
        response := some { status := hookBodyErrStatus e, body := .jsonErr e },
        failures, dispatches := [] }
    | .ok payload =>
      if hookSubPath req.pathname hooksConfig.basePath == "wake" then
        match env.normalizeWake payload with
        | .error e =>
          { claimed := true, response := some { status := 400, body := .jsonErr e },
            failures, dispatches := [] }
        | .ok v =>
          { claimed := true,
            response := some { status := 200, body := .jsonOkMode v.mode },
            failures, dispatches := [.wake v] }
      else if hookSubPath req.pathname hooksConfig.basePath == "agent" then
        match env.normalizeAgent payload with
        | .error e =>
          { claimed := true, response := some { status := 400, body := .jsonErr e },
            failures, dispatches := [] }
        | .ok v =>
          if ! env.agentAllowed v.agentId then
            { claimed := true,
              response := some { status := 400, body := .jsonErr env.agentPolicyError },
              failures, dispatches := [] }
          else
            match env.resolveSessionKey "request" v.sessionKey with
            | .error e =>
              { claimed := true, response := some { status := 400, body := .jsonErr e },
                failures, dispatches := [] }
            | .ok sk =>
              { claimed := true,
                response := some { status := 202, body := .jsonOkRunId env.agentRunId },
                failures,
                dispatches := [.agent v.message v.name (env.resolveTargetAgentId v.agentId) sk] }
      else if hooksConfig.mappingsNonempty then
        match env.applyMappings payload (hookSubPath req.pathname hooksConfig.basePath) with
        | .thrown =>
          { claimed := true,
            response := some { status := 500, body := .jsonErr "hook mapping failed" },
            failures, dispatches := [] }
        | .noMatch =>
          { claimed := true, response := some { status := 404, body := .text "Not Found" },
            failures, dispatches := [] }
        | .err e =>
          { claimed := true, response := some { status := 400, body := .jsonErr e },
            failures, dispatches := [] }
        | .noAction =>
          { claimed := true, response := some { status := 204, body := .empty },
            failures, dispatches := [] }
        | .wakeAct text mode =>
          { claimed := true,
            response := some { status := 200, body := .jsonOkMode mode },
            failures, dispatches := [.wake ⟨text, mode⟩] }
        | .agentAct message name agentId sessionKey channel =>
          match env.resolveChannel channel with
          | none =>
            { claimed := true,
              response := some { status := 400, body := .jsonErr env.channelError },
              failures, dispatches := [] }
          | some _ =>
            if ! env.agentAllowed agentId then
              { claimed := true,
                response := some { status := 400, body := .jsonErr env.agentPolicyError },
                failures, dispatches := [] }
            else
              match env.resolveSessionKey "mapping" sessionKey with
              | .error e =>
                { claimed := true, response := some { status := 400, body := .jsonErr e },
                  failures, dispatches := [] }
              | .ok sk =>
                { claimed := true,
                  response := some { status := 202, body := .jsonOkRunId env.agentRunId },
                  failures,
                  dispatches := [.agent message (name.getD "Hook")
                    (env.resolveTargetAgentId agentId) sk] }
      else
        { claimed := true, response := some { status := 404, body := .text "Not Found" },
          failures, dispatches := [] }

/-- Rejection text for a query-string token. -/
def hookQueryTokenText : String :=
  "Hook token must be provided via Authorization: Bearer <token> or X-OpenClaw-Token header (query parameters are not allowed)."

/-- The hooks request handler returned by `createHooksRequestHandler`:
config/path gate, query-token rejection, token comparison with
rate-limited failure recording, then the post-authorization tail. -/
def handleHooksRequest {Payload : Type} (env : HooksEnv Payload)
    (cfg : Option HooksConfigResolved) (failures : HookFailureMap)
    (req : HookReq Payload) (nowMs : Int) : HookOutcome :=
  match cfg with
  | none => { claimed := false, response := none, failures, dispatches := [] }
  | some hooksConfig =>
    if !(req.pathname == hooksConfig.basePath
        || strStartsWith req.pathname (hooksConfig.basePath ++ "/")) then
      { claimed := false, response := none, failures, dispatches := [] }
    else if req.queryHasToken then
      { claimed := true,
        response := some { status := 400, body := .text hookQueryTokenText },
        failures, dispatches := [] }
    else if ! safeEqualSecret req.hookToken hooksConfig.token then
      let thr := recordHookAuthFailure failures (resolveHookClientKey req.remoteAddress) nowMs
      if thr.2.throttled then
        { claimed := true,
          response := some { status := 429,
                             retryAfter := some (thr.2.retryAfterSeconds.getD 1),
                             body := .text "Too Many Requests" },
          failures := thr.1, dispatches := [] }
      else
        { claimed := true, response := some { status := 401, body := .text "Unauthorized" },
          failures := thr.1, dispatches := [] }
    else
      hookPostAuth env hooksConfig
        (clearHookAuthFailure failures (resolveHookClientKey req.remoteAddress)) req

/-- Concrete hooks oracle environment over an opaque numeric payload:
payload `1` normalizes as the wake body `{text: ping, mode: now}` and
payload `2` as an agent message. -/
def hooksEnvW : HooksEnv Nat :=
  { normalizeWake := fun p => if p == 1 then .ok ⟨"ping", "now"⟩ else .error "invalid payload"
    normalizeAgent := fun p =>
      if p == 2 then .ok ⟨"do it", "Hook", none, none⟩ else .error "invalid payload"
    agentAllowed := fun _ => true
    agentPolicyError := "agent not allowed"
    channelError := "unknown channel"
    resolveSessionKey := fun _ sk => .ok (sk.getD "hook:default")
    resolveTargetAgentId := fun a => a
    resolveChannel := fun c => c
    applyMappings := fun _ _ => .noMatch
    agentRunId := "run-1" }

def hooksCfgW : HooksConfigResolved :=
  { basePath := "/hooks", token := "secret", mappingsNonempty := false }

/-- A well-formed `POST /hooks/wake` with the right token and the wake
payload. -/
def wakeReqW : HookReq Nat :=
  { method := "POST", pathname := "/hooks/wake", queryHasToken := false,
    hookToken := some "secret", remoteAddress := some "203.0.113.5", body := .ok 1 }

/-- A well-formed `POST /hooks/agent` with the right token and the agent
payload. -/
def agentReqW : HookReq Nat :=
  { method := "POST", pathname := "/hooks/agent", queryHasToken := false,
    hookToken := some "secret", remoteAddress := some "203.0.113.5", body := .ok 2 }

/-- A request under the hooks base path with a `token` query parameter
and a valid header token. -/
def queryTokenReqW : HookReq Nat :=
  { method := "POST", pathname := "/hooks/wake", queryHasToken := true,
    hookToken := some "secret", remoteAddress := some "203.0.113.5", body := .ok 1 }

/-- A non-POST request under the hooks base path with a wrong token. -/
def badTokenReqW : HookReq Nat :=
  { method := "GET", pathname := "/hooks/wake", queryHasToken := false,
    hookToken := some "wrong", remoteAddress := some "203.0.113.5", body := .err "bad json" }

/-- A non-POST request under the hooks base path with the right token. -/
def goodTokenGetReqW : HookReq Nat :=
  { method := "GET", pathname := "/hooks/wake", queryHasToken := false,
    hookToken := some "secret", remoteAddress := some "203.0.113.5", body := .err "bad json" }

/-! ## Unified request router, ordinary-request chain
(`createBunGatewayHandlers.fetch`)

The dispatch order and the `/api/channels/` gateway-auth gate are
translated from the source; the individual stage handlers (hooks,
tools-invoke, Slack, plugin, and everything after the plugin stage) are
oracles, since their internals are external collaborators.  The outcome
records whether the plugin handler was invoked and whether the router
itself ran the gateway auth check, which is what the claim is about. -/

/-- The request fields the routing logic reads. -/
structure RouterReq where
  path : String
  bearerToken : Option String
deriving DecidableEq

/-- Stage oracles: a stage returns `some response` when it claims the
request (resolving the promise via `pseudoRes.end`) and `none` when it
declines. `restChain` collapses the stages after the plugin stage
(open-responses, OpenAI, canvas, control UI and the 404 fallback), which
always produce a response. -/
structure RouterEnv (ρ : Type) where
  hooks : RouterReq → Option ρ
  toolsInvoke : RouterReq → Option ρ
  slack : RouterReq → Option ρ
  plugin : Option (RouterReq → Option ρ)
  authorizeConnect : RouterReq → GatewayAuthResult
  authFailureResp : GatewayAuthResult → ρ
  restChain : RouterReq → ρ

structure RouteOutcome (ρ : Type) where
  resp : ρ
  pluginCalled : Bool
  routerAuthChecked : Bool
deriving DecidableEq

/-- The ordinary-request routing chain of the Bun gateway fetch handler:
hooks → tools-invoke → Slack → (gateway auth for `/api/channels/` +
plugin) → rest of the chain. -/
def routeHttp {ρ : Type} (env : RouterEnv ρ) (req : RouterReq) : RouteOutcome ρ :=
  match env.hooks req with
  | some r => { resp := r, pluginCalled := false, routerAuthChecked := false }
  | none =>
    match env.toolsInvoke req with
    | some r => { resp := r, pluginCalled := false, routerAuthChecked := false }
    | none =>
      match env.slack req with
      | some r => { resp := r, pluginCalled := false, routerAuthChecked := false }
      | none =>
        match env.plugin with
        | some pluginHandler =>
          if strStartsWith req.path "/api/channels/" then
            if ! (env.authorizeConnect req).ok then
              { resp := env.authFailureResp (env.authorizeConnect req),
                pluginCalled := false, routerAuthChecked := true }
            else
              match pluginHandler req with
              | some r => { resp := r, pluginCalled := true, routerAuthChecked := true }
              | none =>
                { resp := env.restChain req, pluginCalled := true, routerAuthChecked := true }
          else
            match pluginHandler req with
            | some r => { resp := r, pluginCalled := true, routerAuthChecked := false }
            | none =>
              { resp := env.restChain req, pluginCalled := true, routerAuthChecked := false }
        | none =>
          { resp := env.restChain req, pluginCalled := false, routerAuthChecked := false }

/-- Concrete router environment for the channel-path witness: every
pre-plugin stage declines, the plugin would claim, and gateway auth
fails. -/
def routerEnvW : RouterEnv String :=
  { hooks := fun _ => none
    toolsInvoke := fun _ => none
    slack := fun _ => none
    plugin := some (fun _ => some "plugin-response")
    authorizeConnect := fun _ => { ok := false, reason := some "unauthorized" }
    authFailureResp := fun _ => "auth-failure"
    restChain := fun _ => "not-found" }

def channelsReqW : RouterReq :=
  { path := "/api/channels/slack/events", bearerToken := none }

/-! ## Bun gateway pseudo-response (`createBunGatewayHandlers.fetch`)

The promise-resolving pseudo `ServerResponse`: `end` resolves the fetch
promise with the current status on its first call and is a no-op
afterwards (`hasResolved` guard); the trailing 404 fallback and the
catch-all 500 run only when nothing has resolved yet.  `resolved = some`
plays the role of `hasResolved = true` together with the resolved
`Response`. -/

/-- The data captured in the `Response` built by `end`. -/
structure ResponseInit where
  status : Nat
  body : Option String
deriving DecidableEq

structure PseudoResState where
  statusCode : Nat
  headersSent : Bool
  resolved : Option ResponseInit
deriving DecidableEq

/-- The `pseudoRes` as constructed: status 200, nothing sent. -/
def initialPseudoRes : PseudoResState :=
  { statusCode := 200, headersSent := false, resolved := none }

/-- Source `pseudoRes.end(data)`: if already resolved, return immediately;
otherwise mark headers sent and resolve with the current status code. -/
def pseudoEnd (s : PseudoResState) (body : Option String) : PseudoResState :=
  match s.resolved with
  | some _ => s
  | none => { s with headersSent := true, resolved := some ⟨s.statusCode, body⟩ }

/-- A handler stage sending a response: assign `statusCode`, then call
`end` — the assignment happens even when the response is already
resolved, but the resolved response does not change. -/
def sendAttempt (s : PseudoResState) (status : Nat) (body : Option String) : PseudoResState :=
  pseudoEnd { s with statusCode := status } body

def runSendAttempts (s : PseudoResState) (calls : List (Nat × Option String)) :
    PseudoResState :=
  calls.foldl (fun st c => sendAttempt st c.1 c.2) s

/-- The trailing fallback: `if (!hasResolved) { statusCode = 404; end(Not Found) }`. -/
def finishNotFound (s : PseudoResState) : PseudoResState :=
  if s.resolved.isSome then s else sendAttempt s 404 (some "Not Found")

/-- The catch-all: `if (!hasResolved) { statusCode = 500; end(...) }`. -/
def finishServerError (s : PseudoResState) : PseudoResState :=
  if s.resolved.isSome then s else sendAttempt s 500 (some "Internal Server Error")

/-! ### Association list lemmas -/

theorem lookup_append_of_none {l₁ l₂ : HookFailureMap} {k : String}
    (h : l₁.lookup k = none) : (l₁ ++ l₂).lookup k = l₂.lookup k := by
  induction l₁ with
  | nil => simp
  | cons a l ih =>
    simp only [List.lookup, List.cons_append] at h ⊢
    cases hba : (k == a.1) with
    | true => simp [hba] at h
    | false => simp only [hba] at h ⊢; exact ih h

theorem lookup_none_of_not_mem_keys {l : HookFailureMap} {k : String}
    (h : k ∉ l.map Prod.fst) : l.lookup k = none := by
  induction l with
  | nil => simp
  | cons a l ih =>
    simp only [List.map_cons, List.mem_cons] at h
    push_neg at h
    simp only [List.lookup]
    have : (k == a.1) = false := by
      simpa [beq_iff_eq] using h.1
    simp only [this]
    exact ih h.2

theorem mem_of_lookup_eq_some {l : HookFailureMap} {k : String} {v : HookAuthFailure}
    (h : l.lookup k = some v) : (k, v) ∈ l := by
  induction l with
  | nil => simp at h
  | cons a l ih =>
    simp only [List.lookup] at h
    cases hba : (k == a.1) with
    | true =>
      simp only [hba] at h
      obtain ⟨rfl⟩ := h
      have hk : k = a.1 := by simpa [beq_iff_eq] using hba
      subst hk
      rw [Prod.mk.eta]
      exact List.mem_cons_self a l
    | false =>
      simp only [hba] at h
      exact List.mem_cons_of_mem _ (ih h)

theorem not_mem_of_lookup_eq_none {l : HookFailureMap} {k : String} {v : HookAuthFailure}
    (h : l.lookup k = none) : (k, v) ∉ l := by
  intro hmem
  induction l with
  | nil => simp at hmem
  | cons a l ih =>
    simp only [List.lookup] at h
    rcases List.mem_cons.mp hmem with heq | htail
    · subst heq
      simp at h
    · cases hba : (k == a.1) with
      | true => simp [hba] at h
      | false =>
        simp only [hba] at h
        exact ih h htail

theorem lookup_eraseP_append_self {l : HookFailureMap} {k : String} {v : HookAuthFailure}
    (h : keysNodup l) :
    ((l.eraseP (fun e => e.1 == k)) ++ [(k, v)]).lookup k = some v := by
  induction l with
  | nil => simp [List.lookup]
  | cons a l ih =>
    cases hak : (a.1 == k) with
    | true =>
      have hk : a.1 = k := by simpa [beq_iff_eq] using hak
      simp only [List.eraseP_cons, hak, cond_true]
      have hnotin : k ∉ l.map Prod.fst := by
        have := (List.nodup_cons.mp h).1
        simpa [hk] using this
      rw [lookup_append_of_none (lookup_none_of_not_mem_keys hnotin)]
      simp [List.lookup]
    | false =>
      have hnd : keysNodup l := (List.nodup_cons.mp h).2
      simp only [List.eraseP_cons, hak, List.cons_append, List.lookup]
      have hka : (k == a.1) = false := by
        rw [beq_eq_false_iff_ne] at hak ⊢
        exact fun hkk => hak hkk.symm
      simp only [hka]
      exact ih hnd

theorem not_mem_keys_eraseP_self {l : HookFailureMap} {k : String}
    (h : keysNodup l) : k ∉ (l.eraseP (fun e => e.1 == k)).map Prod.fst := by
  induction l with
  | nil => simp
  | cons a l ih =>
    cases hak : (a.1 == k) with
    | true =>
      have hk : a.1 = k := by simpa [beq_iff_eq] using hak
      simp only [List.eraseP_cons, hak, cond_true]
      have := (List.nodup_cons.mp h).1
      simpa [hk] using this
    | false =>
      have hk : a.1 ≠ k := by simpa using hak
      simp only [List.eraseP_cons, hak, cond_false, List.map_cons, List.mem_cons]
      push_neg
      exact ⟨fun he => hk he.symm, ih (List.nodup_cons.mp h).2⟩

theorem keysNodup_eraseP_append {l : HookFailureMap} {k : String} {v : HookAuthFailure}
    (h : keysNodup l) :
    keysNodup ((l.eraseP (fun e => e.1 == k)) ++ [(k, v)]) := by
  unfold keysNodup at *
  rw [List.map_append, List.nodup_append]
  refine ⟨h.sublist (List.Sublist.map Prod.fst (List.eraseP_sublist l)), by simp, ?_⟩
  intro x hx hx2
  simp only [List.map_cons, List.map_nil, List.mem_singleton] at hx2
  subst hx2
  exact not_mem_keys_eraseP_self h hx

/-! ### Rate limiter behaviour within one window -/

theorem recordHookAuthFailure_step {m : HookFailureMap} {key : String} {c : Nat} {t0 t : Int}
    (hm : m.lookup key = some ⟨c, t0⟩) (hnd : keysNodup m)
    (hfresh : t - t0 < HOOK_AUTH_FAILURE_WINDOW_MS) :
    (recordHookAuthFailure m key t).1.lookup key = some ⟨c + 1, t0⟩ ∧
    keysNodup (recordHookAuthFailure m key t).1 ∧
    (recordHookAuthFailure m key t).2.throttled = decide (HOOK_AUTH_FAILURE_LIMIT < c + 1) ∧
    (HOOK_AUTH_FAILURE_LIMIT < c + 1 →
      ∃ s, (recordHookAuthFailure m key t).2.retryAfterSeconds = some s ∧ 1 ≤ s) := by
  have hexp : hookEntryExpired t ⟨c, t0⟩ = false := by
    simp only [hookEntryExpired, decide_eq_false_iff_not, not_le]
    exact hfresh
  unfold recordHookAuthFailure
  simp only [hm, Option.isNone_some, Bool.false_eq_true, false_and, if_false, hexp,
    Bool.false_eq_true, if_false]
  by_cases hc : c + 1 ≤ HOOK_AUTH_FAILURE_LIMIT
  · simp only [hc, if_true]
    refine ⟨lookup_eraseP_append_self hnd, keysNodup_eraseP_append hnd, ?_, ?_⟩
    · simp
      omega
    · intro h
      omega
  · simp only [hc, if_false]
    refine ⟨lookup_eraseP_append_self hnd, keysNodup_eraseP_append hnd, ?_, ?_⟩
    · simp
      omega
    · intro _
      refine ⟨(max 1 (t0 + HOOK_AUTH_FAILURE_WINDOW_MS - t) + 999) / 1000, rfl, ?_⟩
      have h1 : (1 : Int) ≤ max 1 (t0 + HOOK_AUTH_FAILURE_WINDOW_MS - t) :=
        le_max_left _ _
      omega

theorem runHookFailures_inv {key : String} {t0 : Int} (ts : List Int) {c : Nat}
    {m : HookFailureMap} {res : HookThrottleResult}
    (hm : m.lookup key = some ⟨c, t0⟩) (hnd : keysNodup m)
    (hts : ∀ t ∈ ts, t - t0 < HOOK_AUTH_FAILURE_WINDOW_MS) :
    (runHookFailures (m, res) key ts).1.lookup key = some ⟨c + ts.length, t0⟩ ∧
    keysNodup (runHookFailures (m, res) key ts).1 ∧
    (ts ≠ [] →
      (runHookFailures (m, res) key ts).2.throttled
          = decide (HOOK_AUTH_FAILURE_LIMIT < c + ts.length) ∧
      (HOOK_AUTH_FAILURE_LIMIT < c + ts.length →
        ∃ s, (runHookFailures (m, res) key ts).2.retryAfterSeconds = some s ∧ 1 ≤ s)) ∧
    (ts = [] → runHookFailures (m, res) key ts = (m, res)) := by
  induction ts generalizing m res c with
  | nil =>
    refine ⟨by simpa [runHookFailures] using hm, by simpa [runHookFailures] using hnd,
      by simp, fun _ => by simp [runHookFailures]⟩
  | cons t ts ih =>
    obtain ⟨hl, hn, hth, hretry⟩ :=
      recordHookAuthFailure_step hm hnd (hts t (by simp))
    have hrun : runHookFailures (m, res) key (t :: ts)
        = runHookFailures (recordHookAuthFailure m key t) key ts := by
      simp only [runHookFailures, List.foldl_cons]
    rcases hX : recordHookAuthFailure m key t with ⟨m', r'⟩
    rw [hX] at hrun hl hn hth hretry
    simp only [hrun]
    have hts' : ∀ u ∈ ts, u - t0 < HOOK_AUTH_FAILURE_WINDOW_MS := fun u hu =>
      hts u (List.mem_cons_of_mem _ hu)
    obtain ⟨ihl, ihn, ihth, ihnil⟩ := ih hl hn hts'
    rcases Decidable.em (ts = []) with hts0 | hts0
    · subst hts0
      refine ⟨?_, ?_, ?_, by simp⟩
      · simpa using ihl
      · simpa using ihn
      · intro _
        rw [ihnil rfl]
        exact ⟨by simpa using hth, by simpa using hretry⟩
    · refine ⟨?_, ihn, ?_, by simp_all⟩
      · have : c + 1 + ts.length = c + (t :: ts).length := by simp; omega
        rw [← this]
        exact ihl
      · intro _
        obtain ⟨h1, h2⟩ := ihth hts0
        have hlen : c + 1 + ts.length = c + (t :: ts).length := by simp; omega
        rw [← hlen]
        exact ⟨h1, h2⟩

/-- First recording for a key on the empty map. -/
theorem recordHookAuthFailure_empty (key : String) (t0 : Int) :
    recordHookAuthFailure [] key t0
      = ([(key, ⟨1, t0⟩)], { throttled := false }) := by
  simp [recordHookAuthFailure, HOOK_AUTH_FAILURE_TRACK_MAX, HOOK_AUTH_FAILURE_LIMIT,
    List.lookup]

/-- Claim C3: for a fresh key, a run of `N` failure recordings within one
window leaves the counter at `N`; the result is unthrottled while
`N ≤ 20`, and at `N = 21` it is throttled with `retryAfterSeconds ≥ 1`;
independently, a failure arriving once the window has aged
`≥ 60000 ms` resets the entry to count `1` and is not throttled. -/
theorem C3_hook_rate_limit (key : String) (t0 : Int) (ts : List Int)
    (hts : ∀ t ∈ ts, t0 ≤ t ∧ t - t0 < HOOK_AUTH_FAILURE_WINDOW_MS) :
    ((runHookFailures ([], { throttled := false }) key (t0 :: ts)).1.lookup key
        = some ⟨ts.length + 1, t0⟩ ∧
      (ts.length + 1 ≤ 20 →
        (runHookFailures ([], { throttled := false }) key (t0 :: ts)).2.throttled = false) ∧
      (ts.length + 1 = 21 →
        (runHookFailures ([], { throttled := false }) key (t0 :: ts)).2.throttled = true ∧
        ∃ s, (runHookFailures ([], { throttled := false }) key
                (t0 :: ts)).2.retryAfterSeconds = some s ∧ 1 ≤ s)) ∧
    (∀ (m : HookFailureMap) (c : Nat) (w now : Int), keysNodup m →
      m.lookup key = some ⟨c, w⟩ → HOOK_AUTH_FAILURE_WINDOW_MS ≤ now - w →
      (recordHookAuthFailure m key now).1.lookup key = some ⟨1, now⟩ ∧
      (recordHookAuthFailure m key now).2.throttled = false) := by
  constructor
  · have hrun : runHookFailures ([], { throttled := false }) key (t0 :: ts)
        = runHookFailures ([(key, ⟨1, t0⟩)], { throttled := false }) key ts := by
      simp only [runHookFailures, List.foldl_cons, recordHookAuthFailure_empty]
    have hm : ([(key, (⟨1, t0⟩ : HookAuthFailure))] : HookFailureMap).lookup key
        = some ⟨1, t0⟩ := by simp [List.lookup]
    have hnd : keysNodup [(key, (⟨1, t0⟩ : HookAuthFailure))] := by
      simp [keysNodup]
    obtain ⟨ihl, _, ihth, ihnil⟩ :=
      runHookFailures_inv ts hm hnd (fun t ht => (hts t ht).2)
    rw [hrun]
    refine ⟨by simpa [Nat.add_comm] using ihl, ?_, ?_⟩
    · intro hle
      rcases Decidable.em (ts = []) with h0 | h0
      · rw [ihnil h0]
      · have := (ihth h0).1
        rw [this]
        simp only [decide_eq_false_iff_not, not_lt, HOOK_AUTH_FAILURE_LIMIT]
        omega
    · intro h21
      have h0 : ts ≠ [] := by
        intro h
        subst h
        simp at h21
      obtain ⟨h1, h2⟩ := ihth h0
      have hgt : HOOK_AUTH_FAILURE_LIMIT < 1 + ts.length := by
        simp only [HOOK_AUTH_FAILURE_LIMIT]
        omega
      refine ⟨by rw [h1]; simpa using hgt, h2 hgt⟩
  · intro m c w now hnd hm hexp
    have hexpired : hookEntryExpired now ⟨c, w⟩ = true := by
      simp only [hookEntryExpired, decide_eq_true_eq]
      exact hexp
    unfold recordHookAuthFailure
    simp only [hm, Option.isNone_some, Bool.false_eq_true, false_and, if_false, hexpired,
      if_true]
    have hle : (1 : Nat) ≤ HOOK_AUTH_FAILURE_LIMIT := by simp [HOOK_AUTH_FAILURE_LIMIT]
    simp only [hle, if_true]
    exact ⟨lookup_eraseP_append_self hnd, trivial⟩

/-- Witness for C3: three failures from `10.0.0.8` at `0 ms`, `1000 ms`
and `2000 ms` stay inside one window, leave the counter at 3 and are not
throttled. -/
theorem C3_hook_rate_limit_witness :
    (∀ t ∈ ([1000, 2000] : List Int), (0 : Int) ≤ t ∧ t - 0 < HOOK_AUTH_FAILURE_WINDOW_MS) ∧
    (runHookFailures ([], { throttled := false }) "10.0.0.8"
        ((0 : Int) :: [1000, 2000])).1.lookup "10.0.0.8" = some ⟨3, 0⟩ ∧
    (runHookFailures ([], { throttled := false }) "10.0.0.8"
        ((0 : Int) :: [1000, 2000])).2.throttled = false := by
  have h : ∀ t ∈ ([1000, 2000] : List Int),
      (0 : Int) ≤ t ∧ t - 0 < HOOK_AUTH_FAILURE_WINDOW_MS := by decide
  obtain ⟨⟨h1, h2, _⟩, _⟩ := C3_hook_rate_limit "10.0.0.8" 0 [1000, 2000] h
  exact ⟨h, h1, h2 (by decide)⟩

/-- Claim C6: `resolveLeastPrivilegeOperatorScopesForMethod` checks the approval
set, then the pairing set, then the read set, then the write set, then the
admin-only classification (reserved prefixes `exec.approvals.`, `config.`,
`wizard.`, `update.` plus an explicit admin set), returning the single scope
of the first matching set, and returns the empty list for every unclassified
method (default deny); in particular `config.get` sits in the read set and
resolves to the read scope even though it also matches the `config.` admin
prefix. -/
theorem C6_method_scope_order (method : String) :
    (isApprovalMethod method = true →
      resolveLeastPrivilegeOperatorScopesForMethod method = [APPROVALS_SCOPE]) ∧
    (isApprovalMethod method = false → isPairingMethod method = true →
      resolveLeastPrivilegeOperatorScopesForMethod method = [PAIRING_SCOPE]) ∧
    (isApprovalMethod method = false → isPairingMethod method = false →
      isReadMethod method = true →
      resolveLeastPrivilegeOperatorScopesForMethod method = [READ_SCOPE]) ∧
    (isApprovalMethod method = false → isPairingMethod method = false →
      isReadMethod method = false → isWriteMethod method = true →
      resolveLeastPrivilegeOperatorScopesForMethod method = [WRITE_SCOPE]) ∧
    (isApprovalMethod method = false → isPairingMethod method = false →
      isReadMethod method = false → isWriteMethod method = false →
      isAdminOnlyMethod method = true →
      resolveLeastPrivilegeOperatorScopesForMethod method = [ADMIN_SCOPE]) ∧
    (isApprovalMethod method = false → isPairingMethod method = false →
      isReadMethod method = false → isWriteMethod method = false →
      isAdminOnlyMethod method = false →
      resolveLeastPrivilegeOperatorScopesForMethod method = []) ∧
    (isAdminOnlyMethod "config.get" = true ∧
      resolveLeastPrivilegeOperatorScopesForMethod "config.get" = [READ_SCOPE]) := by
  refine ⟨?_, ?_, ?_, ?_, ?_, ?_, by decide, by decide⟩ <;>
    simp_all [resolveLeastPrivilegeOperatorScopesForMethod]

/-- Witness for C6: evaluating the scope resolver at the concrete method
`config.get` discharges the hypotheses of the read-set conjunct. -/
theorem C6_method_scope_order_witness :
    resolveLeastPrivilegeOperatorScopesForMethod "config.get" = [READ_SCOPE] :=
  ((C6_method_scope_order "config.get").2.2.1 (by decide) (by decide) (by decide))

/-! ### Eviction at capacity (C2) -/

theorem lookup_isSome_of_mem_keys {l : HookFailureMap} {k : String}
    (h : k ∈ l.map Prod.fst) : (l.lookup k).isSome := by
  induction l with
  | nil => simp at h
  | cons a l ih =>
    by_cases hk : (k == a.1) = true
    · simp [List.lookup, hk]
    · simp only [List.map_cons, List.mem_cons] at h
      have hmem : k ∈ l.map Prod.fst := by
        rcases h with h | h
        · exact absurd h (by simpa [beq_iff_eq] using hk)
        · exact h
      rw [Bool.not_eq_true] at hk
      simp only [List.lookup, hk]
      exact ih hmem

theorem not_mem_keys_of_lookup_none {l : HookFailureMap} {k : String}
    (h : l.lookup k = none) : k ∉ l.map Prod.fst := by
  intro hmem
  have := lookup_isSome_of_mem_keys hmem
  rw [h] at this
  simp at this

theorem evictForNewHookKey_sublist (m : HookFailureMap) (now : Int) :
    List.Sublist (evictForNewHookKey m now) m := by
  unfold evictForNewHookKey pruneExpiredHookFailures
  split
  · exact (List.drop_sublist _ _).trans (List.filter_sublist m)
  · exact List.filter_sublist m

theorem mem_pruned_of_mem_evict {m : HookFailureMap} {now : Int}
    {x : String × HookAuthFailure} (h : x ∈ evictForNewHookKey m now) :
    x ∈ pruneExpiredHookFailures m now := by
  unfold evictForNewHookKey at h
  split at h
  · exact (List.drop_sublist _ _).subset h
  · exact h

theorem fresh_of_mem_pruned {m : HookFailureMap} {now : Int}
    {x : String × HookAuthFailure} (h : x ∈ pruneExpiredHookFailures m now) :
    now - x.2.windowStartedAtMs < HOOK_AUTH_FAILURE_WINDOW_MS := by
  unfold pruneExpiredHookFailures at h
  have := (List.mem_filter.mp h).2
  simp only [hookEntryExpired, Bool.not_eq_true', decide_eq_false_iff_not, not_le] at this
  exact this

/-- In the eviction case (new key while at the hard cap) the recorder
prunes, then possibly drops the oldest half, then appends the fresh
window for the new key, and the call is not throttled. -/
theorem record_evict_case {m : HookFailureMap} {key : String} {now : Int}
    (hnone : m.lookup key = none) (hcap : HOOK_AUTH_FAILURE_TRACK_MAX ≤ m.length) :
    recordHookAuthFailure m key now
      = (((evictForNewHookKey m now).eraseP (fun e => e.1 == key))
          ++ [(key, ⟨1, now⟩)], { throttled := false }) := by
  have hkeys : key ∉ (evictForNewHookKey m now).map Prod.fst := fun hk =>
    not_mem_keys_of_lookup_none hnone
      ((List.Sublist.map Prod.fst (evictForNewHookKey_sublist m now)).subset hk)
  have hev : (evictForNewHookKey m now).lookup key = none :=
    lookup_none_of_not_mem_keys hkeys
  unfold recordHookAuthFailure
  simp only [hnone, Option.isNone_none, true_and, hcap, if_true, hev,
    HOOK_AUTH_FAILURE_LIMIT]
  norm_num

/-- The result map of any recording ends with the entry for the recorded
key: delete-before-set refreshes the insertion position. -/
theorem record_fst_shape (m : HookFailureMap) (key : String) (now : Int) :
    ∃ v, (recordHookAuthFailure m key now).1
      = (((if (m.lookup key).isNone = true ∧ HOOK_AUTH_FAILURE_TRACK_MAX ≤ m.length then
            evictForNewHookKey m now
          else m).eraseP (fun e => e.1 == key)) ++ [(key, v)]) := by
  unfold recordHookAuthFailure
  dsimp only
  by_cases h1 : (m.lookup key).isNone = true ∧ HOOK_AUTH_FAILURE_TRACK_MAX ≤ m.length
  · rw [if_pos h1]
    split <;> exact ⟨_, rfl⟩
  · rw [if_neg h1]
    split <;> exact ⟨_, rfl⟩

theorem evict_length_add_one_le (m : HookFailureMap) (now : Int)
    (h : m.length ≤ HOOK_AUTH_FAILURE_TRACK_MAX) :
    (evictForNewHookKey m now).length + 1 ≤ HOOK_AUTH_FAILURE_TRACK_MAX := by
  have hp : (pruneExpiredHookFailures m now).length ≤ m.length :=
    (List.filter_sublist m).length_le
  unfold evictForNewHookKey
  split
  · rename_i hcap2
    rw [List.length_drop]
    simp only [HOOK_AUTH_FAILURE_TRACK_MAX] at *
    omega
  · rename_i hlt
    push_neg at hlt
    simp only [HOOK_AUTH_FAILURE_TRACK_MAX] at *
    omega

theorem record_length_le (m : HookFailureMap) (key : String) (now : Int)
    (h : m.length ≤ HOOK_AUTH_FAILURE_TRACK_MAX) :
    (recordHookAuthFailure m key now).1.length ≤ HOOK_AUTH_FAILURE_TRACK_MAX := by
  obtain ⟨v, hv⟩ := record_fst_shape m key now
  rw [hv, List.length_append, List.length_cons, List.length_nil]
  by_cases hc : (m.lookup key).isNone = true ∧ HOOK_AUTH_FAILURE_TRACK_MAX ≤ m.length
  · rw [if_pos hc]
    have h1 : ((evictForNewHookKey m now).eraseP (fun e => e.1 == key)).length
        ≤ (evictForNewHookKey m now).length :=
      (List.eraseP_sublist _).length_le
    have h2 := evict_length_add_one_le m now h
    omega
  · rw [if_neg hc]
    rcases hsome : m.lookup key with _ | v0
    · have hlt : m.length < HOOK_AUTH_FAILURE_TRACK_MAX := by
        rcases Decidable.em (HOOK_AUTH_FAILURE_TRACK_MAX ≤ m.length) with hcap | hcap
        · exact absurd ⟨by simp [hsome], hcap⟩ hc
        · omega
      have h1 : (m.eraseP (fun e => e.1 == key)).length ≤ m.length :=
        (List.eraseP_sublist _).length_le
      omega
    · have hmem : (key, v0) ∈ m := mem_of_lookup_eq_some hsome
      have h1 : (m.eraseP (fun e => e.1 == key)).length = m.length - 1 :=
        List.length_eraseP_of_mem hmem (by simp)
      have h2 : 1 ≤ m.length := List.length_pos.mpr (by rintro rfl; simp at hmem)
      omega

/-- Claim C2: when `recordHookAuthFailure` is called for a new key while the
failure map is at its 2048-entry cap, the surviving entries are exactly
entries still inside the current window (every expired entry is pruned
before any insertion-order eviction happens), so no within-window key is
dropped while an expired key survives; if pruning alone gets the map below
capacity, no within-window entry is dropped at all; every recording
re-appends its key at the tail (delete-then-reinsert refreshes insertion
order); and a map at most at capacity stays at most at capacity. -/
theorem C2_hook_failure_eviction (m : HookFailureMap) (key : String) (now : Int)
    (hnone : m.lookup key = none)
    (hcap : HOOK_AUTH_FAILURE_TRACK_MAX ≤ m.length)
    (hsize : m.length ≤ HOOK_AUTH_FAILURE_TRACK_MAX) :
    (∀ k e, (k, e) ∈ (recordHookAuthFailure m key now).1 →
      now - e.windowStartedAtMs < HOOK_AUTH_FAILURE_WINDOW_MS) ∧
    (¬ ∃ k₁ e₁ k₂ e₂,
        (k₁, e₁) ∈ m ∧
        now - e₁.windowStartedAtMs < HOOK_AUTH_FAILURE_WINDOW_MS ∧
        (∀ e', (k₁, e') ∉ (recordHookAuthFailure m key now).1) ∧
        (k₂, e₂) ∈ (recordHookAuthFailure m key now).1 ∧
        HOOK_AUTH_FAILURE_WINDOW_MS ≤ now - e₂.windowStartedAtMs) ∧
    ((pruneExpiredHookFailures m now).length < HOOK_AUTH_FAILURE_TRACK_MAX →
      ∀ k e, (k, e) ∈ m →
        now - e.windowStartedAtMs < HOOK_AUTH_FAILURE_WINDOW_MS →
        (k, e) ∈ (recordHookAuthFailure m key now).1) ∧
    (∀ (m' : HookFailureMap) (k' : String) (t : Int),
      ∃ e, ((recordHookAuthFailure m' k' t).1).getLast? = some (k', e)) ∧
    (∀ (m' : HookFailureMap) (k' : String) (t : Int),
      m'.length ≤ HOOK_AUTH_FAILURE_TRACK_MAX →
      (recordHookAuthFailure m' k' t).1.length ≤ HOOK_AUTH_FAILURE_TRACK_MAX) := by
  have hfreshAll : ∀ k e, (k, e) ∈ (recordHookAuthFailure m key now).1 →
      now - e.windowStartedAtMs < HOOK_AUTH_FAILURE_WINDOW_MS := by
    intro k e hmem
    have hmem' : (k, e) ∈ ((evictForNewHookKey m now).eraseP (fun e => e.1 == key))
        ++ [(key, (⟨1, now⟩ : HookAuthFailure))] := by
      rw [record_evict_case hnone hcap] at hmem
      simpa using hmem
    rcases List.mem_append.mp hmem' with hL | hR
    · exact fresh_of_mem_pruned (mem_pruned_of_mem_evict (List.mem_of_mem_eraseP hL))
    · simp only [List.mem_singleton, Prod.mk.injEq] at hR
      rw [hR.2]
      simp [HOOK_AUTH_FAILURE_WINDOW_MS]
  refine ⟨hfreshAll, ?_, ?_, ?_, ?_⟩
  · rintro ⟨k₁, e₁, k₂, e₂, _, _, _, hmem₂, hexp₂⟩
    exact absurd (hfreshAll k₂ e₂ hmem₂) (not_lt.mpr hexp₂)
  · intro hunder k e hk hfresh
    have hkeyne : (k == key) ≠ true := by
      simp only [beq_iff_eq, ne_eq]
      rintro rfl
      exact not_mem_keys_of_lookup_none hnone (List.mem_map_of_mem Prod.fst hk)
    rw [record_evict_case hnone hcap]
    show (k, e) ∈ ((evictForNewHookKey m now).eraseP (fun e => e.1 == key))
        ++ [(key, (⟨1, now⟩ : HookAuthFailure))]
    apply List.mem_append_left
    rw [List.mem_eraseP_of_neg (by simpa using hkeyne)]
    unfold evictForNewHookKey
    rw [if_neg (not_le.mpr hunder)]
    refine List.mem_filter.mpr ⟨hk, ?_⟩
    simp only [Bool.not_eq_true', hookEntryExpired, decide_eq_false_iff_not, not_le]
    exact hfresh
  · intro m' k' t
    obtain ⟨v, hv⟩ := record_fst_shape m' k' t
    exact ⟨v, by rw [hv, List.getLast?_concat]⟩
  · intro m' k' t h
    exact record_length_le m' k' t h

/-! #### Witness facts for the crowd map -/

theorem crowdKey_ne_x (i : Nat) : crowdKey (i + 1) ≠ "x" := by
  intro h
  have hdata : List.replicate (i + 1) 'a' = "x".data := congrArg String.data h
  have hx : "x".data = ['x'] := rfl
  rw [hx] at hdata
  have hlen : i + 1 = 1 := by
    have := congrArg List.length hdata
    simpa using this
  rw [hlen] at hdata
  simp only [List.replicate, List.cons.injEq] at hdata
  exact absurd hdata.1 (by decide)

theorem hookCrowdMap_lookup_x : hookCrowdMap.lookup "x" = none := by
  apply lookup_none_of_not_mem_keys
  intro hmem
  simp only [hookCrowdMap, List.map_cons, List.map_map, List.mem_cons] at hmem
  rcases hmem with h | h
  · exact absurd h (by decide)
  · obtain ⟨i, _, hkey⟩ := List.mem_map.mp h
    exact crowdKey_ne_x i (by simpa [Function.comp] using hkey)

theorem hookCrowdMap_length : hookCrowdMap.length = 2048 := by
  simp [hookCrowdMap]

theorem hookCrowdMap_pruned_lt :
    (pruneExpiredHookFailures hookCrowdMap 1000).length < HOOK_AUTH_FAILURE_TRACK_MAX := by
  unfold pruneExpiredHookFailures hookCrowdMap
  rw [List.filter_cons]
  have hexp : (! hookEntryExpired 1000 (⟨1, -100000⟩ : HookAuthFailure)) = false := by
    simp only [hookEntryExpired, Bool.not_eq_false', decide_eq_true_eq,
      HOOK_AUTH_FAILURE_WINDOW_MS]
    decide
  rw [if_neg (by simp [hexp])]
  have := List.length_filter_le (fun e : String × HookAuthFailure =>
    ! hookEntryExpired 1000 e.2) ((List.range 2047).map (fun i => (crowdKey (i + 1), ⟨1, 0⟩)))
  simp only [List.length_map, List.length_range] at this
  simp only [HOOK_AUTH_FAILURE_TRACK_MAX]
  omega

/-- Witness for C2: the 2048-entry crowd map with one expired window,
recording a failure for the fresh key `x` at `1000 ms`. -/
theorem C2_hook_failure_eviction_witness :
    hookCrowdMap.lookup "x" = none ∧
    HOOK_AUTH_FAILURE_TRACK_MAX ≤ hookCrowdMap.length ∧
    hookCrowdMap.length ≤ HOOK_AUTH_FAILURE_TRACK_MAX ∧
    (pruneExpiredHookFailures hookCrowdMap 1000).length < HOOK_AUTH_FAILURE_TRACK_MAX ∧
    (∃ e, ((recordHookAuthFailure hookCrowdMap "x" 1000).1).getLast? = some ("x", e)) ∧
    (recordHookAuthFailure hookCrowdMap "x" 1000).1.length ≤ HOOK_AUTH_FAILURE_TRACK_MAX := by
  have h1 := hookCrowdMap_lookup_x
  have h2 : HOOK_AUTH_FAILURE_TRACK_MAX ≤ hookCrowdMap.length := by
    rw [hookCrowdMap_length]
    simp [HOOK_AUTH_FAILURE_TRACK_MAX]
  have h3 : hookCrowdMap.length ≤ HOOK_AUTH_FAILURE_TRACK_MAX := by
    rw [hookCrowdMap_length]
    simp [HOOK_AUTH_FAILURE_TRACK_MAX]
  obtain ⟨_, _, _, h4, h5⟩ := C2_hook_failure_eviction hookCrowdMap "x" 1000 h1 h2 h3
  exact ⟨h1, h2, h3, hookCrowdMap_pruned_lt, h4 hookCrowdMap "x" 1000,
    h5 hookCrowdMap "x" 1000 h3⟩

/-! ### Canvas authorization (C1, C5) -/

theorem canvasIpFallback_grant (env : NetEnv) (p : CanvasAuthParams)
    (hasP remoteT : Bool) (lf : Option GatewayAuthResult)
    (hip : canvasClientIp env p ≠ "")
    (hpriv : env.isPrivateOrLoopback (canvasClientIp env p) = true)
    (hproxy : hasP = false ∨ remoteT = true)
    (hnode : hasAuthorizedNodeWsClientForIp env p.clients (canvasClientIp env p) = true) :
    canvasIpFallback env p hasP remoteT lf = { ok := true } := by
  have h1 : ¬((canvasClientIp env p == "") = true) := by simp [hip]
  have h2 : ¬((! env.isPrivateOrLoopback (canvasClientIp env p)) = true) := by simp [hpriv]
  have h3 : ¬((hasP && ! remoteT) = true) := by
    rcases hproxy with h | h <;> simp [h]
  unfold canvasIpFallback
  rw [if_neg h1, if_neg h2, if_neg h3, if_pos hnode]

theorem canvasIpFallback_deny (env : NetEnv) (p : CanvasAuthParams)
    (hasP remoteT : Bool) (lf : Option GatewayAuthResult)
    (hfail : ¬(canvasClientIp env p ≠ "" ∧
      env.isPrivateOrLoopback (canvasClientIp env p) = true ∧
      (hasP = false ∨ remoteT = true) ∧
      hasAuthorizedNodeWsClientForIp env p.clients (canvasClientIp env p) = true)) :
    canvasIpFallback env p hasP remoteT lf = lf.getD unauthorizedResult := by
  unfold canvasIpFallback
  by_cases h1 : (canvasClientIp env p == "") = true
  · rw [if_pos h1]
  · rw [if_neg h1]
    by_cases h2 : (! env.isPrivateOrLoopback (canvasClientIp env p)) = true
    · rw [if_pos h2]
    · rw [if_neg h2]
      by_cases h3 : (hasP && ! remoteT) = true
      · rw [if_pos h3]
      · rw [if_neg h3]
        by_cases h4 : hasAuthorizedNodeWsClientForIp env p.clients (canvasClientIp env p)
            = true
        · exfalso
          apply hfail
          refine ⟨by simpa using h1, by simpa using h2, ?_, h4⟩
          cases hasP <;> cases remoteT <;> simp_all
        · rw [if_neg h4]

/-- Reduction of `authorizeCanvasRequest` to the fallback tail once the
request is not local-direct and any supplied token fails. -/
theorem authorizeCanvasRequest_reduce (env : NetEnv) (p : CanvasAuthParams)
    (hlocal : env.isLocalDirect p.req p.trustedProxies = false)
    (htoken : (env.authorizeConnect (p.req.bearerToken.getD "")).ok = false) :
    authorizeCanvasRequest env p
      = canvasIpFallback env p
          (optTruthy p.req.xForwardedFor || optTruthy p.req.xRealIp)
          (env.isTrustedProxy p.req.remoteAddress p.trustedProxies)
          (if (p.req.bearerToken.getD "" == "") = true then none
           else some (env.authorizeConnect (p.req.bearerToken.getD ""))) := by
  unfold authorizeCanvasRequest
  rw [if_neg (by simp [hlocal])]
  dsimp only
  by_cases htok : (p.req.bearerToken.getD "" == "") = true
  · rw [if_pos htok, if_pos htok]
  · rw [if_neg htok, if_neg htok, if_neg (by simp [htoken])]

theorem getD_unauthorized_ok_false {lf : Option GatewayAuthResult}
    (h : ∀ r, lf = some r → r.ok = false) :
    (lf.getD unauthorizedResult).ok = false := by
  cases lf with
  | none => rfl
  | some r => exact h r rfl

/-- Claim C1: for a request that is not local-direct and whose bearer token
(if any) fails verification, `authorizeCanvasRequest` grants access iff
the resolved client IP is nonempty, private or loopback, the proxy headers
are absent or the immediate peer is a trusted proxy, and an authenticated
node-role connection exists at that same IP; in particular a request whose
resolved IP is not private/loopback is always denied, even when a node
session exists at that IP. -/
theorem C1_canvas_ip_fallback (env : NetEnv) (p : CanvasAuthParams)
    (hlocal : env.isLocalDirect p.req p.trustedProxies = false)
    (htoken : (env.authorizeConnect (p.req.bearerToken.getD "")).ok = false) :
    ((authorizeCanvasRequest env p).ok = true ↔
      (canvasClientIp env p ≠ "" ∧
        env.isPrivateOrLoopback (canvasClientIp env p) = true ∧
        ((optTruthy p.req.xForwardedFor || optTruthy p.req.xRealIp) = false ∨
          env.isTrustedProxy p.req.remoteAddress p.trustedProxies = true) ∧
        hasAuthorizedNodeWsClientForIp env p.clients (canvasClientIp env p) = true)) ∧
    (env.isPrivateOrLoopback (canvasClientIp env p) = false →
      (authorizeCanvasRequest env p).ok = false) := by
  have hred := authorizeCanvasRequest_reduce env p hlocal htoken
  have hlf : ∀ r, (if (p.req.bearerToken.getD "" == "") = true then none
      else some (env.authorizeConnect (p.req.bearerToken.getD ""))) = some r →
      r.ok = false := by
    intro r hr
    split at hr
    · exact absurd hr (by simp)
    · injection hr with hr'
      rw [← hr']
      exact htoken
  constructor
  · constructor
    · intro hok
      by_contra hC
      rw [hred, canvasIpFallback_deny env p _ _ _ hC] at hok
      rw [getD_unauthorized_ok_false hlf] at hok
      exact absurd hok (by simp)
    · intro hC
      rw [hred, canvasIpFallback_grant env p _ _ _ hC.1 hC.2.1 hC.2.2.1 hC.2.2.2]
  · intro hpub
    have hC : ¬(canvasClientIp env p ≠ "" ∧
        env.isPrivateOrLoopback (canvasClientIp env p) = true ∧
        ((optTruthy p.req.xForwardedFor || optTruthy p.req.xRealIp) = false ∨
          env.isTrustedProxy p.req.remoteAddress p.trustedProxies = true) ∧
        hasAuthorizedNodeWsClientForIp env p.clients (canvasClientIp env p) = true) := by
      rintro ⟨-, hpriv, -, -⟩
      rw [hpub] at hpriv
      exact absurd hpriv (by simp)
    rw [hred, canvasIpFallback_deny env p _ _ _ hC]
    exact getD_unauthorized_ok_false hlf

/-- Witness for C1: tokenless request from the public address
`203.0.113.9`, with an authenticated node session at that exact address —
authorization still fails. -/
theorem C1_canvas_ip_fallback_witness :
    pubEnv.isLocalDirect pubParams.req pubParams.trustedProxies = false ∧
    (pubEnv.authorizeConnect (pubParams.req.bearerToken.getD "")).ok = false ∧
    pubEnv.isPrivateOrLoopback (canvasClientIp pubEnv pubParams) = false ∧
    hasAuthorizedNodeWsClientForIp pubEnv pubParams.clients
      (canvasClientIp pubEnv pubParams) = true ∧
    (authorizeCanvasRequest pubEnv pubParams).ok = false := by
  refine ⟨rfl, rfl, by decide, by decide, ?_⟩
  exact (C1_canvas_ip_fallback pubEnv pubParams rfl rfl).2 (by decide)

/-- Claim C5: a failed bearer-token verification does not short-circuit
`authorizeCanvasRequest`: if the IP fallback conditions hold the overall
result is `ok`, and if every path fails the remembered token-failure
result itself is returned (not a generic failure). -/
theorem C5_token_failure_no_short_circuit (env : NetEnv) (p : CanvasAuthParams)
    (hlocal : env.isLocalDirect p.req p.trustedProxies = false)
    (htok : p.req.bearerToken.getD "" ≠ "")
    (hfail : (env.authorizeConnect (p.req.bearerToken.getD "")).ok = false) :
    ((canvasClientIp env p ≠ "" ∧
        env.isPrivateOrLoopback (canvasClientIp env p) = true ∧
        ((optTruthy p.req.xForwardedFor || optTruthy p.req.xRealIp) = false ∨
          env.isTrustedProxy p.req.remoteAddress p.trustedProxies = true) ∧
        hasAuthorizedNodeWsClientForIp env p.clients (canvasClientIp env p) = true) →
      authorizeCanvasRequest env p = { ok := true }) ∧
    (¬(canvasClientIp env p ≠ "" ∧
        env.isPrivateOrLoopback (canvasClientIp env p) = true ∧
        ((optTruthy p.req.xForwardedFor || optTruthy p.req.xRealIp) = false ∨
          env.isTrustedProxy p.req.remoteAddress p.trustedProxies = true) ∧
        hasAuthorizedNodeWsClientForIp env p.clients (canvasClientIp env p) = true) →
      authorizeCanvasRequest env p = env.authorizeConnect (p.req.bearerToken.getD "")) := by
  have hred := authorizeCanvasRequest_reduce env p hlocal hfail
  have hlfeq : (if (p.req.bearerToken.getD "" == "") = true then none
      else some (env.authorizeConnect (p.req.bearerToken.getD "")))
      = some (env.authorizeConnect (p.req.bearerToken.getD "")) := by
    rw [if_neg (by simp [htok])]
  constructor
  · intro hC
    rw [hred, canvasIpFallback_grant env p _ _ _ hC.1 hC.2.1 hC.2.2.1 hC.2.2.2]
  · intro hC
    rw [hred, canvasIpFallback_deny env p _ _ _ hC, hlfeq]
    rfl

/-- Witness for C5: a bad bearer token from the private address
`192.168.1.7` with a node session at that address — the fallback still
grants access. -/
theorem C5_token_failure_no_short_circuit_witness :
    lanEnv.isLocalDirect lanParams.req lanParams.trustedProxies = false ∧
    lanParams.req.bearerToken.getD "" ≠ "" ∧
    (lanEnv.authorizeConnect (lanParams.req.bearerToken.getD "")).ok = false ∧
    authorizeCanvasRequest lanEnv lanParams = { ok := true } := by
  refine ⟨rfl, by decide, rfl, ?_⟩
  exact (C5_token_failure_no_short_circuit lanEnv lanParams rfl (by decide) rfl).1
    ⟨by decide, by decide, Or.inl rfl, by decide⟩

/-! ### Hook handler theorems (C4, C8, C9) -/

theorem handleHooksRequest_auth_fail {Payload : Type} (env : HooksEnv Payload)
    (hc : HooksConfigResolved) (failures : HookFailureMap) (req : HookReq Payload)
    (nowMs : Int)
    (hpath : (req.pathname == hc.basePath
        || strStartsWith req.pathname (hc.basePath ++ "/")) = true)
    (hq : req.queryHasToken = false)
    (hauth : safeEqualSecret req.hookToken hc.token = false) :
    handleHooksRequest env (some hc) failures req nowMs
      = (if (recordHookAuthFailure failures (resolveHookClientKey req.remoteAddress)
              nowMs).2.throttled then
          { claimed := true,
            response := some { status := 429,
                               retryAfter := some ((recordHookAuthFailure failures
                                 (resolveHookClientKey req.remoteAddress)
                                 nowMs).2.retryAfterSeconds.getD 1),
                               body := .text "Too Many Requests" },
            failures := (recordHookAuthFailure failures
              (resolveHookClientKey req.remoteAddress) nowMs).1,
            dispatches := [] }
        else
          { claimed := true,
            response := some { status := 401, body := .text "Unauthorized" },
            failures := (recordHookAuthFailure failures
              (resolveHookClientKey req.remoteAddress) nowMs).1,
            dispatches := [] }) := by
  unfold handleHooksRequest
  simp only [hpath, Bool.not_true, Bool.false_eq_true, if_false, hq, hauth, Bool.not_false,
    if_true]

theorem handleHooksRequest_auth_ok {Payload : Type} (env : HooksEnv Payload)
    (hc : HooksConfigResolved) (failures : HookFailureMap) (req : HookReq Payload)
    (nowMs : Int)
    (hpath : (req.pathname == hc.basePath
        || strStartsWith req.pathname (hc.basePath ++ "/")) = true)
    (hq : req.queryHasToken = false)
    (hauth : safeEqualSecret req.hookToken hc.token = true) :
    handleHooksRequest env (some hc) failures req nowMs
      = hookPostAuth env hc
          (clearHookAuthFailure failures (resolveHookClientKey req.remoteAddress)) req := by
  unfold handleHooksRequest
  simp only [hpath, Bool.not_true, Bool.false_eq_true, if_false, hq, hauth]

theorem hookPostAuth_failures {Payload : Type} (env : HooksEnv Payload)
    (hc : HooksConfigResolved) (failures : HookFailureMap) (req : HookReq Payload) :
    (hookPostAuth env hc failures req).failures = failures := by
  unfold hookPostAuth
  repeat' split
  all_goals rfl

theorem hookBodyErrStatus_cases (e : String) :
    hookBodyErrStatus e = 413 ∨ hookBodyErrStatus e = 408 ∨ hookBodyErrStatus e = 400 := by
  unfold hookBodyErrStatus
  split
  · exact Or.inl rfl
  · split
    · exact Or.inr (Or.inl rfl)
    · exact Or.inr (Or.inr rfl)

theorem hookPostAuth_status_ne_401 {Payload : Type} (env : HooksEnv Payload)
    (hc : HooksConfigResolved) (failures : HookFailureMap) (req : HookReq Payload) :
    ∀ r, (hookPostAuth env hc failures req).response = some r → r.status ≠ 401 := by
  intro r hr
  unfold hookPostAuth at hr
  repeat' split at hr
  all_goals (injection hr with hr; subst hr)
  all_goals try simp
  all_goals (rename_i e heq; rcases hookBodyErrStatus_cases e with h | h | h <;> simp [h])

/-- Claim C4: a hook request under the configured base path whose query
string carries a `token` parameter is claimed and answered 400 with the
header-only instruction, regardless of the header token's validity, and
the failure map is untouched — the check precedes token extraction and
comparison. -/
theorem C4_query_token_rejected {Payload : Type} (env : HooksEnv Payload)
    (hc : HooksConfigResolved) (failures : HookFailureMap) (req : HookReq Payload)
    (nowMs : Int)
    (hpath : (req.pathname == hc.basePath
        || strStartsWith req.pathname (hc.basePath ++ "/")) = true)
    (hq : req.queryHasToken = true) :
    handleHooksRequest env (some hc) failures req nowMs
      = { claimed := true,
          response := some { status := 400, body := .text hookQueryTokenText },
          failures := failures, dispatches := [] } := by
  unfold handleHooksRequest
  simp only [hpath, Bool.not_true, Bool.false_eq_true, if_false, hq, if_true]

/-- Witness for C4: a `POST /hooks/wake` carrying both a *valid* header
token and a `token` query parameter is still rejected with 400. -/
theorem C4_query_token_rejected_witness :
    ((queryTokenReqW.pathname == hooksCfgW.basePath
        || strStartsWith queryTokenReqW.pathname (hooksCfgW.basePath ++ "/")) = true) ∧
    queryTokenReqW.queryHasToken = true ∧
    safeEqualSecret queryTokenReqW.hookToken hooksCfgW.token = true ∧
    handleHooksRequest hooksEnvW (some hooksCfgW) [] queryTokenReqW 0
      = { claimed := true,
          response := some { status := 400, body := .text hookQueryTokenText },
          failures := [], dispatches := [] } :=
  ⟨by decide, by decide, by decide,
    C4_query_token_rejected hooksEnvW hooksCfgW [] queryTokenReqW 0 (by decide) (by decide)⟩

/-- Claim C8: for a hook request under the base path without a query token:
a token mismatch yields 429 with `Retry-After` when the caller's window is
throttled and 401 otherwise (recording the failure either way); a token
match clears the caller's window, and a non-POST method then yields 405
with `Allow: POST`; consequently a wrong-token request never receives 405
and a correct-token request never receives 401. -/
theorem C8_hook_auth_responses {Payload : Type} (env : HooksEnv Payload)
    (hc : HooksConfigResolved) (failures : HookFailureMap) (req : HookReq Payload)
    (nowMs : Int)
    (hpath : (req.pathname == hc.basePath
        || strStartsWith req.pathname (hc.basePath ++ "/")) = true)
    (hq : req.queryHasToken = false) :
    (safeEqualSecret req.hookToken hc.token = false →
      (recordHookAuthFailure failures (resolveHookClientKey req.remoteAddress)
          nowMs).2.throttled = true →
      handleHooksRequest env (some hc) failures req nowMs
        = { claimed := true,
            response := some { status := 429,
                               retryAfter := some ((recordHookAuthFailure failures
                                 (resolveHookClientKey req.remoteAddress)
                                 nowMs).2.retryAfterSeconds.getD 1),
                               body := .text "Too Many Requests" },
            failures := (recordHookAuthFailure failures
              (resolveHookClientKey req.remoteAddress) nowMs).1,
            dispatches := [] }) ∧
    (safeEqualSecret req.hookToken hc.token = false →
      (recordHookAuthFailure failures (resolveHookClientKey req.remoteAddress)
          nowMs).2.throttled = false →
      handleHooksRequest env (some hc) failures req nowMs
        = { claimed := true,
            response := some { status := 401, body := .text "Unauthorized" },
            failures := (recordHookAuthFailure failures
              (resolveHookClientKey req.remoteAddress) nowMs).1,
            dispatches := [] }) ∧
    (safeEqualSecret req.hookToken hc.token = true →
      (handleHooksRequest env (some hc) failures req nowMs).failures
        = clearHookAuthFailure failures (resolveHookClientKey req.remoteAddress) ∧
      (req.method ≠ "POST" →
        (handleHooksRequest env (some hc) failures req nowMs).response
          = some { status := 405, allow := some "POST",
                   body := .text "Method Not Allowed" })) ∧
    (safeEqualSecret req.hookToken hc.token = false →
      ∀ r, (handleHooksRequest env (some hc) failures req nowMs).response = some r →
        r.status ≠ 405) ∧
    (safeEqualSecret req.hookToken hc.token = true →
      ∀ r, (handleHooksRequest env (some hc) failures req nowMs).response = some r →
        r.status ≠ 401) := by
  refine ⟨?_, ?_, ?_, ?_, ?_⟩
  · intro hauth hthr
    rw [handleHooksRequest_auth_fail env hc failures req nowMs hpath hq hauth, if_pos hthr]
  · intro hauth hthr
    rw [handleHooksRequest_auth_fail env hc failures req nowMs hpath hq hauth,
      if_neg (by simp [hthr])]
  · intro hauth
    rw [handleHooksRequest_auth_ok env hc failures req nowMs hpath hq hauth]
    refine ⟨hookPostAuth_failures env hc _ req, ?_⟩
    intro hmethod
    unfold hookPostAuth
    rw [if_pos (by simp [bne_iff_ne, hmethod])]
  · intro hauth r hr
    rw [handleHooksRequest_auth_fail env hc failures req nowMs hpath hq hauth] at hr
    split at hr <;> (injection hr with hr; subst hr; simp)
  · intro hauth r hr
    rw [handleHooksRequest_auth_ok env hc failures req nowMs hpath hq hauth] at hr
    exact hookPostAuth_status_ne_401 env hc _ req r hr

/-- Witness for C8: a wrong-token `GET /hooks/wake` on an empty failure
map is answered 401 (not throttled, not 405), and the failure is
recorded. -/
theorem C8_hook_auth_responses_witness :
    ((badTokenReqW.pathname == hooksCfgW.basePath
        || strStartsWith badTokenReqW.pathname (hooksCfgW.basePath ++ "/")) = true) ∧
    badTokenReqW.queryHasToken = false ∧
    safeEqualSecret badTokenReqW.hookToken hooksCfgW.token = false ∧
    (recordHookAuthFailure [] (resolveHookClientKey badTokenReqW.remoteAddress)
        0).2.throttled = false ∧
    handleHooksRequest hooksEnvW (some hooksCfgW) [] badTokenReqW 0
      = { claimed := true,
          response := some { status := 401, body := .text "Unauthorized" },
          failures := (recordHookAuthFailure []
            (resolveHookClientKey badTokenReqW.remoteAddress) 0).1,
          dispatches := [] } := by
  refine ⟨by decide, by decide, by decide, by decide, ?_⟩
  exact (C8_hook_auth_responses hooksEnvW hooksCfgW [] badTokenReqW 0 (by decide)
    (by decide)).2.1 (by decide) (by decide)

/-- Claim C9: a `POST` to the `wake` sub-route with a correct token and a
body normalizing to `{text, mode: now}` dispatches the wake action and
answers `200 {ok: true, mode: now}`; the analogous `agent` success
dispatches the agent action and answers `202 {ok: true, runId}`. -/
theorem C9_hook_wake_agent_success {Payload : Type} (env : HooksEnv Payload)
    (hc : HooksConfigResolved) (failures : HookFailureMap) (req : HookReq Payload)
    (nowMs : Int) (payload : Payload)
    (hpath : (req.pathname == hc.basePath
        || strStartsWith req.pathname (hc.basePath ++ "/")) = true)
    (hq : req.queryHasToken = false)
    (hauth : safeEqualSecret req.hookToken hc.token = true)
    (hmethod : req.method = "POST")
    (hbody : req.body = .ok payload) :
    (∀ text : String,
      hookSubPath req.pathname hc.basePath = "wake" →
      env.normalizeWake payload = .ok ⟨text, "now"⟩ →
      handleHooksRequest env (some hc) failures req nowMs
        = { claimed := true,
            response := some { status := 200, body := .jsonOkMode "now" },
            failures := clearHookAuthFailure failures
              (resolveHookClientKey req.remoteAddress),
            dispatches := [.wake ⟨text, "now"⟩] }) ∧
    (∀ (v : AgentValue) (sk : String),
      hookSubPath req.pathname hc.basePath = "agent" →
      env.normalizeAgent payload = .ok v →
      env.agentAllowed v.agentId = true →
      env.resolveSessionKey "request" v.sessionKey = .ok sk →
      handleHooksRequest env (some hc) failures req nowMs
        = { claimed := true,
            response := some { status := 202, body := .jsonOkRunId env.agentRunId },
            failures := clearHookAuthFailure failures
              (resolveHookClientKey req.remoteAddress),
            dispatches := [.agent v.message v.name (env.resolveTargetAgentId v.agentId)
              sk] }) := by
  rw [handleHooksRequest_auth_ok env hc failures req nowMs hpath hq hauth]
  constructor
  · intro text hsub hnorm
    unfold hookPostAuth
    rw [if_neg (by simp [hmethod]), hbody, hsub]
    simp only [hnorm]
    rfl
  · intro v sk hsub hnorm hallow hsk
    unfold hookPostAuth
    rw [if_neg (by simp [hmethod]), hbody, hsub]
    simp only [hnorm, hallow, hsk]
    rfl

/-- Witness for C9, wake half: `POST /hooks/wake` with the right token
and the wake payload answers `200 {ok: true, mode: now}`. -/
theorem C9_hook_wake_agent_success_witness :
    safeEqualSecret wakeReqW.hookToken hooksCfgW.token = true ∧
    hooksEnvW.normalizeWake 1 = .ok ⟨"ping", "now"⟩ ∧
    handleHooksRequest hooksEnvW (some hooksCfgW) [] wakeReqW 0
      = { claimed := true,
          response := some { status := 200, body := .jsonOkMode "now" },
          failures := clearHookAuthFailure []
            (resolveHookClientKey wakeReqW.remoteAddress),
          dispatches := [.wake ⟨"ping", "now"⟩] } :=
  ⟨by decide, rfl,
    (C9_hook_wake_agent_success hooksEnvW hooksCfgW [] wakeReqW 0 1 (by decide) (by decide)
      (by decide) rfl rfl).1 "ping" (by decide) rfl⟩

/-! ### Router and pseudo-response theorems (C7, C10) -/

/-- Claim C7: when a plugin handler is installed and no earlier stage claims
the request, the router runs the gateway auth check itself exactly for
paths under `/api/channels/`; on auth failure it sends the auth-failure
response without ever invoking the plugin handler, while plugin routes
outside that prefix go to the plugin handler with no router-level auth
check. -/
theorem C7_channels_prefix_auth {ρ : Type} (env : RouterEnv ρ) (req : RouterReq)
    (ph : RouterReq → Option ρ) (hplug : env.plugin = some ph)
    (hhooks : env.hooks req = none) (htools : env.toolsInvoke req = none)
    (hslack : env.slack req = none) :
    (strStartsWith req.path "/api/channels/" = true →
      (routeHttp env req).routerAuthChecked = true ∧
      ((env.authorizeConnect req).ok = false →
        routeHttp env req
          = { resp := env.authFailureResp (env.authorizeConnect req),
              pluginCalled := false, routerAuthChecked := true })) ∧
    (strStartsWith req.path "/api/channels/" = false →
      (routeHttp env req).routerAuthChecked = false ∧
      (routeHttp env req).pluginCalled = true) := by
  unfold routeHttp
  rw [hhooks, htools, hslack, hplug]
  dsimp only
  constructor
  · intro hpre
    rw [if_pos hpre]
    by_cases hok : (env.authorizeConnect req).ok = true
    · rw [if_neg (by simp [hok])]
      constructor
      · rcases ph req with _ | r <;> rfl
      · intro hfalse
        rw [hok] at hfalse
        exact absurd hfalse (by simp)
    · rw [if_pos (by simp_all)]
      exact ⟨rfl, fun _ => rfl⟩
  · intro hpre
    rw [if_neg (by simp [hpre])]
    rcases ph req with _ | r <;> exact ⟨rfl, rfl⟩

/-- Witness for C7: a request under `/api/channels/` with failing gateway
auth gets the auth-failure response, and the plugin handler that would
have claimed it is never called. -/
theorem C7_channels_prefix_auth_witness :
    strStartsWith channelsReqW.path "/api/channels/" = true ∧
    (routerEnvW.authorizeConnect channelsReqW).ok = false ∧
    routeHttp routerEnvW channelsReqW
      = { resp := "auth-failure", pluginCalled := false, routerAuthChecked := true } :=
  ⟨by decide, rfl,
    ((C7_channels_prefix_auth routerEnvW channelsReqW (fun _ => some "plugin-response") rfl
      rfl rfl rfl).1 (by decide)).2 rfl⟩

theorem runSendAttempts_frozen {s : PseudoResState} {r : ResponseInit}
    (calls : List (Nat × Option String)) (h : s.resolved = some r) :
    (runSendAttempts s calls).resolved = some r := by
  induction calls generalizing s with
  | nil => simpa [runSendAttempts]
  | cons c cs ih =>
    have hstep : (sendAttempt s c.1 c.2).resolved = some r := by
      unfold sendAttempt pseudoEnd
      simp only [h]
    have : runSendAttempts s (c :: cs)
        = runSendAttempts (sendAttempt s c.1 c.2) cs := by
      simp only [runSendAttempts, List.foldl_cons]
    rw [this]
    exact ih hstep

/-- Claim C10: the pseudo-response resolves the fetch promise exactly once:
the first `end` call resolves it with that call's status and body and
marks headers sent; every later send attempt — the trailing 404 fallback
and the catch-all 500 included — leaves the resolved response unchanged;
and after the fallback runs, a response always exists. -/
theorem C10_pseudo_response_once (calls : List (Nat × Option String))
    (st : Nat) (b : Option String) (s : PseudoResState) (r : ResponseInit)
    (hres : s.resolved = some r) :
    ((runSendAttempts s calls).resolved = some r) ∧
    ((runSendAttempts initialPseudoRes ((st, b) :: calls)).resolved = some ⟨st, b⟩) ∧
    ((runSendAttempts initialPseudoRes ((st, b) :: calls)).headersSent = true) ∧
    (finishNotFound (runSendAttempts initialPseudoRes ((st, b) :: calls))
      = runSendAttempts initialPseudoRes ((st, b) :: calls)) ∧
    ((finishNotFound (runSendAttempts initialPseudoRes calls)).resolved.isSome = true) ∧
    ((finishServerError (runSendAttempts initialPseudoRes calls)).resolved.isSome = true) := by
  have hfirst : sendAttempt initialPseudoRes st b
      = { statusCode := st, headersSent := true, resolved := some ⟨st, b⟩ } := by
    unfold sendAttempt pseudoEnd initialPseudoRes
    rfl
  have hcons : runSendAttempts initialPseudoRes ((st, b) :: calls)
      = runSendAttempts { statusCode := st, headersSent := true,
                          resolved := some ⟨st, b⟩ } calls := by
    simp only [runSendAttempts, List.foldl_cons, hfirst]
  have hrun : (runSendAttempts initialPseudoRes ((st, b) :: calls)).resolved
      = some ⟨st, b⟩ := by
    rw [hcons]
    exact runSendAttempts_frozen calls rfl
  have hsent : ∀ (s' : PseudoResState) (cs : List (Nat × Option String)),
      s'.headersSent = true → (runSendAttempts s' cs).headersSent = true := by
    intro s' cs
    induction cs generalizing s' with
    | nil => intro h; simpa [runSendAttempts] using h
    | cons c cs ih =>
      intro h
      have : runSendAttempts s' (c :: cs) = runSendAttempts (sendAttempt s' c.1 c.2) cs := by
        simp only [runSendAttempts, List.foldl_cons]
      rw [this]
      apply ih
      unfold sendAttempt pseudoEnd
      rcases hres' : s'.resolved with _ | r'
      · simp [hres']
      · simp only [hres']
        exact h
  refine ⟨runSendAttempts_frozen calls hres, hrun, ?_, ?_, ?_, ?_⟩
  · rw [hcons]
    exact hsent _ calls rfl
  · unfold finishNotFound
    rw [if_pos (by simp [hrun])]
  · unfold finishNotFound
    rcases hr : (runSendAttempts initialPseudoRes calls).resolved with _ | r'
    · rw [if_neg (by simp [hr])]
      unfold sendAttempt pseudoEnd
      simp [hr]
    · rw [if_pos (by simp [hr])]
      simp [hr]
  · unfold finishServerError
    rcases hr : (runSendAttempts initialPseudoRes calls).resolved with _ | r'
    · rw [if_neg (by simp [hr])]
      unfold sendAttempt pseudoEnd
      simp [hr]
    · rw [if_pos (by simp [hr])]
      simp [hr]

/-- Witness for C10: a 200 response already resolved survives a later 500
send attempt, and a two-stage sequence resolves with the first stage's
response. -/
theorem C10_pseudo_response_once_witness :
    (({ statusCode := 200, headersSent := true,
        resolved := some ⟨200, some "ok"⟩ } : PseudoResState).resolved
      = some ⟨200, some "ok"⟩) ∧
    ((runSendAttempts { statusCode := 200, headersSent := true,
                        resolved := some ⟨200, some "ok"⟩ }
        [(500, some "Internal Server Error")]).resolved
      = some ⟨200, some "ok"⟩) ∧
    ((runSendAttempts initialPseudoRes
        ((200, some "hello") :: [(404, some "Not Found")])).resolved
      = some ⟨200, some "hello"⟩) := by
  refine ⟨rfl, ?_, ?_⟩
  · exact (C10_pseudo_response_once [(500, some "Internal Server Error")] 200 (some "hello")
      { statusCode := 200, headersSent := true, resolved := some ⟨200, some "ok"⟩ }
      ⟨200, some "ok"⟩ rfl).1
  · exact (C10_pseudo_response_once [(404, some "Not Found")] 200 (some "hello")
      { statusCode := 200, headersSent := true, resolved := some ⟨200, some "ok"⟩ }
      ⟨200, some "ok"⟩ rfl).2.1

end Moltbot
